import Mathlib

/-! Verification of the Brainfuck interpreter in src/main.rs.

Shallow embedding conventions:
* integer arithmetic is embedded uniformly with the checked semantics of
  the default (dev) build profile: `u8` cell values are `Nat` and
  `v + 1` at 255 or `v - 1` at 0 is the fatal overflow panic
  (`arithmeticOverflow`), not a wrap; likewise the `usize` data pointer
  is a `Nat` and `data_pointer -= 1` at 0 is the fatal
  checked-subtraction panic (`pointerUnderflow`). The cast `c as u8` is
  a Rust `as` conversion, which truncates and never panics in any
  profile, so it is `c % 256`;
* every Rust panic is modelled as an `Except.error` carrying a
  constructor of `BFError`; a panic aborts the run, so no partial
  output survives on an error path;
* `io::stdin().read_line` is modelled by an explicit finite supply of
  `ReadResult`s; an exhausted supply means the interpreter is still
  blocked retrying, rendered as `none`;
* the `while` loop of `run` is driven by a fuel parameter; running out
  of fuel is also rendered as `none` (no result determined);
* the loop stack (`Vec<StackItem>` used as push / last) is a `List`
  with its top at the head. -/

namespace BF

/-- The eight operation kinds (`enum Instruction` in main.rs). -/
inductive Instruction where
  | pointerInc
  | pointerDec
  | byteInc
  | byteDec
  | output
  | input
  | openLoop
  | closeLoop
  deriving DecidableEq, Repr

/-- The fatal failures (Rust panics) the interpreter can raise. -/
inductive BFError where
  /-- `panic!("Invalid instruction")` in `init`; the message is a fixed
      string carrying no payload, so the constructor has none. -/
  | invalidInstruction
  /-- `panic!("Unbalanced brackets")` in `run`. -/
  | unbalancedBrackets
  /-- `self.data_pointer -= 1` underflowing at 0 in `pointer_dec`. -/
  | pointerUnderflow
  /-- the checked `u8` arithmetic panic: `v + 1` at 255 in `byte_inc` or
      `v - 1` at 0 in `byte_dec` (the default build profile's
      attempt-to-add/subtract-with-overflow abort). -/
  | arithmeticOverflow
  /-- a `Vec` index panic: tape index in `byte_inc`/`byte_dec`/`output`/
      `input`/`jump`, or instruction index in `get_loop_end`. -/
  | indexOutOfBounds
  /-- `Option::unwrap` on `None`: `loop_stack.last().unwrap()` in `jump`
      or `line.chars().next().unwrap()` in `input`. -/
  | unwrapNone
  /-- `panic!("SHOULD NOT HAVE JUMPED")` in `jump`. -/
  | shouldNotHaveJumped
  deriving DecidableEq, Repr

/-- One result of `io::stdin().read_line`: an I/O failure (`Err(_)`), or a
    success carrying the line's characters as code points (an EOF gives a
    success with an empty line). -/
inductive ReadResult where
  | failure
  | success (line : List Nat)
  deriving DecidableEq, Repr

/-- The mutable state of `struct BFInterpreter` (the immutable
    `instructions_map` is passed separately where needed). -/
structure BFState where
  instructionPointer : Nat
  instructions : List Instruction
  currentInstruction : Instruction
  dataPointer : Nat
  data : List Nat
  loopStack : List Nat
  output : List Nat
  deriving DecidableEq, Repr

/-- The default symbol table built in `BFInterpreter::new` when no custom
    instructions are supplied. -/
def defaultMap (c : Char) : Option Instruction :=
  if c = '>' then some .pointerInc
  else if c = '<' then some .pointerDec
  else if c = '+' then some .byteInc
  else if c = '-' then some .byteDec
  else if c = '.' then some .output
  else if c = ',' then some .input
  else if c = '[' then some .openLoop
  else if c = ']' then some .closeLoop
  else none

/-- The custom symbol table built in `main` (WASD-style bindings). -/
def customMap (c : Char) : Option Instruction :=
  if c = 'D' then some .pointerInc
  else if c = 'A' then some .pointerDec
  else if c = 'W' then some .byteInc
  else if c = 'S' then some .byteDec
  else if c = 'O' then some .output
  else if c = 'I' then some .input
  else if c = '(' then some .openLoop
  else if c = ')' then some .closeLoop
  else none

/-- `fn pointer_inc`: `self.data_pointer += 1`. Total: it can never fail. -/
def pointer_inc (s : BFState) : BFState :=
  { s with dataPointer := s.dataPointer + 1 }

/-- `fn pointer_dec`: `self.data_pointer -= 1`; at 0 the `usize`
    subtraction underflows, a fatal error (the spec's PointerUnderflow). -/
def pointer_dec (s : BFState) : Except BFError BFState :=
  if s.dataPointer = 0 then .error .pointerUnderflow
  else .ok { s with dataPointer := s.dataPointer - 1 }

/-- `fn byte_inc`: `match self.data.get(dp)`. In the `Some(v)` branch the
    write `self.data[dp] = v + 1` is in bounds, and the checked `u8`
    addition `v + 1` panics at `v = 255` (the default build profile's
    overflow abort) and otherwise adds exactly 1. In the `None` branch
    `dp` is past the tape's length, so the write `self.data[dp] = 1`
    indexes out of bounds and panics. -/
def byte_inc (s : BFState) : Except BFError BFState :=
  match s.data.get? s.dataPointer with
  | none => .error .indexOutOfBounds
  | some v =>
    if v = 255 then .error .arithmeticOverflow
    else .ok { s with data := s.data.set s.dataPointer (v + 1) }

/-- `fn byte_dec`: like `byte_inc`; the checked `u8` subtraction `v - 1`
    panics at `v = 0` (the default build profile's overflow abort) and
    otherwise subtracts exactly 1; the `None` branch's write
    `self.data[dp] = 255` indexes out of bounds and panics. -/
def byte_dec (s : BFState) : Except BFError BFState :=
  match s.data.get? s.dataPointer with
  | none => .error .indexOutOfBounds
  | some v =>
    if v = 0 then .error .arithmeticOverflow
    else .ok { s with data := s.data.set s.dataPointer (v - 1) }

/-- `fn output`: `self.output.push(self.data[dp] as char)`; the tape index
    panics when `dp` is past the tape's length. The pushed `char` is kept
    as its code point. -/
def output (s : BFState) : Except BFError BFState :=
  match s.data.get? s.dataPointer with
  | none => .error .indexOutOfBounds
  | some v => .ok { s with output := s.output ++ [v] }

/-- `fn input`, driven by the read supply. `Err(_)` retries the whole
    read. `Ok(_)` takes `line.chars().next().unwrap()` — a panic when the
    line is empty — and stores `c as u8` (the low 8 bits) at `data[dp]`,
    an indexing panic when `dp` is past the tape's length. An exhausted
    supply leaves the interpreter blocked retrying: `none`. -/
def input (s : BFState) :
    List ReadResult → Option (Except BFError (BFState × List ReadResult))
  | [] => none
  | ReadResult.failure :: rest => input s rest
  | ReadResult.success line :: rest =>
    match line.head? with
    | none => some (.error .unwrapNone)
    | some c =>
      if s.dataPointer < s.data.length then
        some (.ok ({ s with data := s.data.set s.dataPointer (c % 256) }, rest))
      else
        some (.error .indexOutOfBounds)

/-- `fn get_loop_end`'s `while` loop, scanning `rest = instructions`
    after position `pointer` (the Rust loop always moves to `pointer + 1`
    before indexing, so the scan walks `instructions[pointer+1..]`).
    `loopdepth` reaching 0 returns the current position; exhausting the
    instruction sequence while `loopdepth > 0` is the Rust index panic
    `self.instructions[pointer]` past the end. -/
def scan_loop_end : List Instruction → Nat → Nat → Except BFError Nat
  | _, 0, pointer => .ok pointer
  | [], _ + 1, _ => .error .indexOutOfBounds
  | i :: rest, d + 1, pointer =>
    match i with
    | .openLoop => scan_loop_end rest (d + 2) (pointer + 1)
    | .closeLoop => scan_loop_end rest d (pointer + 1)
    | _ => scan_loop_end rest (d + 1) (pointer + 1)

/-- `fn get_loop_end`: the scan starts at `loopdepth = loop_stack.len()`
    (not 1) and `pointer = instruction_pointer`. -/
def get_loop_end (s : BFState) : Except BFError Nat :=
  scan_loop_end (s.instructions.drop (s.instructionPointer + 1))
    s.loopStack.length s.instructionPointer

/-- `fn jump`: dispatch on `self.current_instruction`; each arm reads
    `self.data[dp]` (an indexing panic when `dp` is out of range).
    CloseLoop: nonzero cell jumps back to `loop_stack.last().unwrap()`
    without popping. OpenLoop: zero cell jumps to `get_loop_end()`;
    nonzero pushes the current instruction pointer. -/
def jump (s : BFState) : Except BFError BFState :=
  match s.currentInstruction with
  | .closeLoop =>
    match s.data.get? s.dataPointer with
    | none => .error .indexOutOfBounds
    | some 0 => .ok s
    | some (_ + 1) =>
      match s.loopStack.head? with
      | none => .error .unwrapNone
      | some idx => .ok { s with instructionPointer := idx }
  | .openLoop =>
    match s.data.get? s.dataPointer with
    | none => .error .indexOutOfBounds
    | some 0 =>
      match get_loop_end s with
      | .error e => .error e
      | .ok p => .ok { s with instructionPointer := p }
    | some (_ + 1) => .ok { s with loopStack := s.instructionPointer :: s.loopStack }
  | _ => .error .shouldNotHaveJumped

/-- The per-iteration dispatch of `run`'s `while` loop (the `match` over
    `self.instructions[self.instruction_pointer]`), with the read supply
    threaded through; only `Instruction::Input` touches it. -/
def dispatch (cur : Instruction) (s : BFState) (inp : List ReadResult) :
    Option (Except BFError (BFState × List ReadResult)) :=
  match cur with
  | .pointerInc => some (.ok (pointer_inc s, inp))
  | .pointerDec => some ((pointer_dec s).map fun t => (t, inp))
  | .byteInc => some ((byte_inc s).map fun t => (t, inp))
  | .byteDec => some ((byte_dec s).map fun t => (t, inp))
  | .output => some ((output s).map fun t => (t, inp))
  | .input => input s inp
  | .openLoop => some ((jump s).map fun t => (t, inp))
  | .closeLoop => some ((jump s).map fun t => (t, inp))

/-- `run`'s `while self.instruction_pointer < self.instructions.len()`
    loop: fetch the current instruction (the fetch cannot fail under the
    guard), store it in `current_instruction`, dispatch, then advance the
    instruction pointer by 1. Falling off the end returns the collected
    output. `none` means no result within `fuel` (or blocked on input). -/
def execLoop : Nat → BFState → List ReadResult → Option (Except BFError (List Nat))
  | 0, _, _ => none
  | fuel + 1, s, inp =>
    match s.instructions.get? s.instructionPointer with
    | none => some (.ok s.output)
    | some cur =>
      match dispatch cur { s with currentInstruction := cur } inp with
      | none => none
      | some (.error e) => some (.error e)
      | some (.ok (t, inp')) =>
        execLoop fuel { t with instructionPointer := t.instructionPointer + 1 } inp'

/-- `fn init` (decoding part): map each source character through the
    symbol table; a character with no entry is the fatal
    `panic!("Invalid instruction")`, raised at the first such character. -/
def decode (map : Char → Option Instruction) :
    List Char → Except BFError (List Instruction)
  | [] => .ok []
  | c :: rest =>
    match map c with
    | none => .error .invalidInstruction
    | some i => (decode map rest).map fun is => i :: is

/-- The state as `fn init` leaves it: instruction pointer 0, the decoded
    program, `current_instruction` as initialized in `new`
    (`Instruction::Output`), data pointer 0, a zeroed tape of the
    configured size, empty loop stack, empty output. -/
def initState (instrs : List Instruction) (tapeSize : Nat) : BFState :=
  { instructionPointer := 0
    instructions := instrs
    currentInstruction := .output
    dataPointer := 0
    data := List.replicate tapeSize 0
    loopStack := []
    output := [] }

/-- `pub fn run`: `init` (decode, reset state), then the bracket-count
    pre-check (`panic!("Unbalanced brackets")` when the CloseLoop and
    OpenLoop counts differ), then the execution loop, finally collecting
    the output. -/
def run (map : Char → Option Instruction) (tapeSize : Nat) (source : List Char)
    (inp : List ReadResult) (fuel : Nat) : Option (Except BFError (List Nat)) :=
  match decode map source with
  | .error e => some (.error e)
  | .ok instrs =>
    if (instrs.filter fun i => decide (i = Instruction.closeLoop)).length
        ≠ (instrs.filter fun i => decide (i = Instruction.openLoop)).length
    then some (.error .unbalancedBrackets)
    else execLoop fuel (initState instrs tapeSize) inp

/-- C4: running `+++>+++<[>.<-]` with the default instruction set and the
    default tape size (1024) terminates normally and returns exactly three
    characters, each with code point 3. -/
theorem c4_three_code_point_3 :
    run defaultMap 1024
      ['+', '+', '+', '>', '+', '+', '+', '<', '[', '>', '.', '<', '-', ']']
      [] 100 = some (.ok [3, 3, 3]) := by
  rfl

/-- C5: running `WWWDWWWA(DOAS)` on the engine built with the custom
    WASD-style mapping (as in `main`, tape size 100) returns exactly the
    same result as `+++>+++<[>.<-]` on the default engine: the engine's
    execution does not depend on which symbols are bound to the
    operations. -/
theorem c5_custom_mapping_same_output :
    run customMap 100
      ['W', 'W', 'W', 'D', 'W', 'W', 'W', 'A', '(', 'D', 'O', 'A', 'S', ')']
      [] 100
    = run defaultMap 1024
      ['+', '+', '+', '>', '+', '+', '+', '<', '[', '>', '.', '<', '-', ']']
      [] 100 := by
  rfl

/-- C1 counterexample: a top-level leading `[` with cell 0 and an empty
    loop stack does not skip the loop body. `get_loop_end` starts its scan
    at depth `loop_stack.len() = 0`, so it returns the current position
    unchanged and the run falls into the body: `[.]` emits the cell's
    value 0 instead of producing no output. -/
theorem c1_counterexample :
    run defaultMap 1024 ['[', '.', ']'] [] 10 = some (.ok [0]) := by
  rfl

/-- C1 (amended): when a LoopStart is dispatched with the current cell 0,
    the engine does not push onto the loop stack and sets the instruction
    pointer to the result of the loop-end scan, which starts at depth
    equal to the *current loop-stack length* (an out-of-range scan is the
    fatal index error); in particular, with an empty loop stack the scan
    returns the current position unchanged, so after the uniform advance
    by 1 execution proceeds into the loop body instead of skipping it. -/
theorem c1_amended_loop_start_zero (s : BFState)
    (h1 : s.currentInstruction = .openLoop)
    (h2 : s.data.get? s.dataPointer = some 0) :
    (∀ p, get_loop_end s = .ok p →
      jump s = .ok { s with instructionPointer := p })
    ∧ (∀ e, get_loop_end s = .error e → jump s = .error e)
    ∧ (s.loopStack = [] → get_loop_end s = .ok s.instructionPointer) := by
  refine ⟨?_, ?_, ?_⟩
  · intro p hp
    unfold jump
    rw [h1, h2, hp]
  · intro e he
    unfold jump
    rw [h1, h2, he]
  · intro hstack
    unfold get_loop_end
    rw [hstack]
    show scan_loop_end _ 0 _ = _
    rw [scan_loop_end]

/-- The state of the engine running `[.]` at the moment its LoopStart is
    dispatched: instruction pointer 0, the fetched LoopStart as the
    current instruction, cell 0, empty loop stack. -/
def c1State : BFState :=
  { instructionPointer := 0
    instructions := [.openLoop, .output, .closeLoop]
    currentInstruction := .openLoop
    dataPointer := 0
    data := [0, 0, 0, 0]
    loopStack := []
    output := [] }

/-- C1 witness: the amended statement instantiated at the state of the
    program `[.]` dispatching its leading LoopStart with cell 0. -/
theorem c1_amended_witness :
    (∀ p, get_loop_end c1State = .ok p →
      jump c1State = .ok { c1State with instructionPointer := p })
    ∧ (∀ e, get_loop_end c1State = .error e → jump c1State = .error e)
    ∧ (c1State.loopStack = [] → get_loop_end c1State = .ok c1State.instructionPointer) :=
  c1_amended_loop_start_zero c1State rfl rfl

set_option maxRecDepth 8192 in
/-- C2 (code bug): under the default (checked) build profile the `u8`
    arithmetic does not wrap at the boundary — it is a fatal overflow
    abort, contradicting the spec's wraparound contract: one decrement of
    a fresh 0 cell (source `-`) and the 256th increment of a cell
    (source of 256 `+`) both abort the run with the arithmetic-overflow
    panic instead of yielding 255 resp. 0. -/
theorem c2_boundary_overflow_is_fatal :
    run defaultMap 1024 ['-'] [] 10 = some (.error .arithmeticOverflow)
    ∧ run defaultMap 1024 (List.replicate 256 '+') [] 300
      = some (.error .arithmeticOverflow) := by
  exact ⟨rfl, rfl⟩

/-- C3 (code bug): with the data pointer past the tape's length, the
    `None` arm of `byte_inc`/`byte_dec` performs the very indexed write
    (`self.data[self.data_pointer] = 1` resp. `= 255`) that is out of
    bounds, so the run aborts with an index panic instead of establishing
    the value 1 (resp. 255): on a tape of size 1, `>+` and `>-` both fail
    fatally. -/
theorem c3_out_of_range_increment_is_fatal :
    run defaultMap 1 ['>', '+'] [] 10 = some (.error .indexOutOfBounds)
    ∧ run defaultMap 1 ['>', '-'] [] 10 = some (.error .indexOutOfBounds) := by
  exact ⟨rfl, rfl⟩

/-- C8: MovePointerBackward with the data pointer at 0 is the fatal
    pointer-underflow error; running the one-character source `<` on the
    default engine fails with it; and MovePointerForward is total — it
    always just increments the data pointer, with no bound against the
    tape length. -/
theorem c8_pointer_underflow (s t : BFState) (h : s.dataPointer = 0) :
    pointer_dec s = .error .pointerUnderflow
    ∧ run defaultMap 1024 ['<'] [] 10 = some (.error .pointerUnderflow)
    ∧ pointer_inc t = { t with dataPointer := t.dataPointer + 1 } := by
  refine ⟨?_, rfl, rfl⟩
  unfold pointer_dec
  rw [h]
  rfl

/-- C8 witness: the underflow at the initial state of the default engine
    (data pointer 0). -/
theorem c8_pointer_underflow_witness :
    pointer_dec (initState [.pointerDec] 1024) = .error .pointerUnderflow
    ∧ run defaultMap 1024 ['<'] [] 10 = some (.error .pointerUnderflow)
    ∧ pointer_inc (initState [.pointerDec] 1024)
      = { initState [.pointerDec] 1024 with
            dataPointer := (initState [.pointerDec] 1024).dataPointer + 1 } :=
  c8_pointer_underflow (initState [.pointerDec] 1024) (initState [.pointerDec] 1024) rfl

/-- C6: whenever the decoded program has differing LoopStart and LoopEnd
    counts, `run` fails with the unbalanced-brackets error before any
    operation executes: the result is the bare error — with no output and
    no state mutated by the program — for every input supply and every
    fuel. -/
theorem c6_unbalanced_brackets (map : Char → Option Instruction)
    (tapeSize : Nat) (source : List Char) (inp : List ReadResult) (fuel : Nat)
    (instrs : List Instruction) (hd : decode map source = .ok instrs)
    (hne : (instrs.filter fun i => decide (i = Instruction.closeLoop)).length
      ≠ (instrs.filter fun i => decide (i = Instruction.openLoop)).length) :
    run map tapeSize source inp fuel = some (.error .unbalancedBrackets) := by
  unfold run
  rw [hd]
  simp only [if_pos hne]

/-- C6 witness: the one-character source `[` (one LoopStart, no LoopEnd)
    on the default engine. -/
theorem c6_unbalanced_brackets_witness :
    run defaultMap 1024 ['['] [] 5 = some (.error .unbalancedBrackets) :=
  c6_unbalanced_brackets defaultMap 1024 ['['] [] 5 [.openLoop] rfl (by decide)

/-- C7 counterexample: the load failure for an unmapped character is the
    constant panic `"Invalid instruction"`, which carries no payload: two
    sources that differ only in which unmapped character they contain
    fail with literally the same error value, so the error cannot be
    naming the offending character. -/
theorem c7_counterexample :
    run defaultMap 1024 ['a'] [] 5 = some (.error .invalidInstruction)
    ∧ run defaultMap 1024 ['b'] [] 5 = some (.error .invalidInstruction) :=
  ⟨rfl, rfl⟩

/-- Decoding a source containing an unmapped character fails with the
    invalid-instruction error (raised at the first such character, but the
    error value is the same whichever character it is). -/
theorem decode_error_of_unmapped (map : Char → Option Instruction) :
    ∀ (source : List Char), (∃ c ∈ source, map c = none) →
      decode map source = .error .invalidInstruction := by
  intro source
  induction source with
  | nil => rintro ⟨c, hc, -⟩; cases hc
  | cons a rest ih =>
    rintro ⟨c, hc, hnone⟩
    cases hma : map a with
    | none =>
      unfold decode
      rw [hma]
    | some i =>
      have hrest : ∃ c ∈ rest, map c = none := by
        rcases List.mem_cons.mp hc with h | h
        · exact absurd hma (by rw [h] at hnone; rw [hnone]; simp)
        · exact ⟨c, h, hnone⟩
      unfold decode
      rw [hma, ih hrest]
      rfl

/-- C7 (amended): for every source containing a character with no entry
    in the active InstructionSet, `run` fails at load time with the
    invalid-instruction error (a fixed panic message that does not name
    the offending character), and no operation of the program executes:
    the result is the bare error for every input supply and every fuel. -/
theorem c7_invalid_instruction (map : Char → Option Instruction)
    (tapeSize : Nat) (source : List Char) (inp : List ReadResult) (fuel : Nat)
    (h : ∃ c ∈ source, map c = none) :
    run map tapeSize source inp fuel = some (.error .invalidInstruction) := by
  unfold run
  rw [decode_error_of_unmapped map source h]

/-- C7 witness: the unmapped character `a` on the default engine. -/
theorem c7_invalid_instruction_witness :
    run defaultMap 1024 ['a'] [ReadResult.failure] 5
      = some (.error .invalidInstruction) :=
  c7_invalid_instruction defaultMap 1024 ['a'] [ReadResult.failure] 5
    ⟨'a', by simp, rfl⟩

/-- C9 counterexample: a ReadCell whose read succeeds with an empty line
    (an EOF-style empty supply) does not retry: `line.chars().next()` is
    `None` and the `unwrap` panics, surfacing a fatal error to the caller
    — here on the one-character source `,`. -/
theorem c9_counterexample :
    run defaultMap 1024 [','] [ReadResult.success []] 10
      = some (.error .unwrapNone) := by
  rfl

/-- C9 (amended): the read of a ReadCell is retried (indefinitely) only on
    a *failed* read; a successful read of an empty line is a fatal error
    (unwrap of `None`); and a successful read of at least one character
    stores the first character's code point, truncated to 8 bits, into
    the current cell, leaving the rest of the supply for later reads. -/
theorem c9_input_retry_only_on_failure (s : BFState) (rest : List ReadResult)
    (c : Nat) (line : List Nat) (h : s.dataPointer < s.data.length) :
    input s (ReadResult.failure :: rest) = input s rest
    ∧ input s (ReadResult.success [] :: rest) = some (.error .unwrapNone)
    ∧ input s (ReadResult.success (c :: line) :: rest)
      = some (.ok ({ s with data := s.data.set s.dataPointer (c % 256) }, rest)) := by
  refine ⟨rfl, rfl, ?_⟩
  unfold input
  simp only [List.head?]
  rw [if_pos h]

/-- C9 witness: the amended statement at the initial state of the default
    engine running `,`, with the character `A` (code point 65) supplied. -/
theorem c9_input_retry_witness :
    input (initState [.input] 1024) (ReadResult.failure :: [])
      = input (initState [.input] 1024) []
    ∧ input (initState [.input] 1024) (ReadResult.success [] :: [])
      = some (.error .unwrapNone)
    ∧ input (initState [.input] 1024) (ReadResult.success (65 :: []) :: [])
      = some (.ok ({ initState [.input] 1024 with
            data := (initState [.input] 1024).data.set
              (initState [.input] 1024).dataPointer (65 % 256) }, [])) :=
  c9_input_retry_only_on_failure (initState [.input] 1024) [] 65 []
    (by show (0 : Nat) < (List.replicate 1024 (0 : Nat)).length
        rw [List.length_replicate]
        omega)

/-- The pure part of the per-operation dispatch: every operation other
    than ReadCell neither consumes nor inspects the read supply (the
    ReadCell arm here is a placeholder never reached through
    `dispatch_eq_pureStep`). -/
def pureStep : Instruction → BFState → Except BFError BFState
  | .pointerInc, s => .ok (pointer_inc s)
  | .pointerDec, s => pointer_dec s
  | .byteInc, s => byte_inc s
  | .byteDec, s => byte_dec s
  | .output, s => output s
  | .input, s => .ok s
  | .openLoop, s => jump s
  | .closeLoop, s => jump s

theorem dispatch_eq_pureStep (cur : Instruction) (s : BFState)
    (inp : List ReadResult) (h : cur ≠ .input) :
    dispatch cur s inp = some ((pureStep cur s).map fun t => (t, inp)) := by
  cases cur <;> first | rfl | exact absurd rfl h

/-- No operation handler ever changes the decoded instruction sequence. -/
theorem pureStep_instructions {cur : Instruction} {s t : BFState}
    (h : pureStep cur s = .ok t) : t.instructions = s.instructions := by
  cases cur <;>
    simp only [pureStep, pointer_inc, pointer_dec, byte_inc, byte_dec,
      output, jump] at h <;>
    (repeat' split at h) <;>
    simp_all <;>
    rw [← h]

/-- Programs without ReadCell never consume or inspect the read supply:
    the execution loop's result is the same for any two supplies. -/
theorem execLoop_input_free : ∀ (fuel : Nat) (s : BFState)
    (in1 in2 : List ReadResult), Instruction.input ∉ s.instructions →
    execLoop fuel s in1 = execLoop fuel s in2 := by
  intro fuel
  induction fuel with
  | zero => intro s in1 in2 _; rfl
  | succ n ih =>
    intro s in1 in2 h
    unfold execLoop
    cases hg : s.instructions.get? s.instructionPointer with
    | none => rfl
    | some cur =>
      have hcur : cur ∈ s.instructions := List.get?_mem hg
      have hne : cur ≠ .input := fun he => h (he ▸ hcur)
      dsimp only
      rw [dispatch_eq_pureStep _ _ _ hne, dispatch_eq_pureStep _ _ _ hne]
      cases hp : pureStep cur { s with currentInstruction := cur } with
      | error e => rfl
      | ok t =>
        simp only [Except.map]
        apply ih
        have ht := pureStep_instructions hp
        show Instruction.input ∉ t.instructions
        rw [ht]
        exact h

/-- C10: for every source whose decoded program contains no ReadCell,
    `run` is deterministic, with no dependence on the external input:
    two runs with identical configuration and fuel but arbitrary (and
    possibly different) input supplies produce the same outcome — the
    same output on normal termination, or the same fatal error. -/
theorem c10_no_input_deterministic (map : Char → Option Instruction)
    (tapeSize : Nat) (source : List Char) (fuel : Nat)
    (in1 in2 : List ReadResult) (instrs : List Instruction)
    (hd : decode map source = .ok instrs)
    (hni : Instruction.input ∉ instrs) :
    run map tapeSize source in1 fuel = run map tapeSize source in2 fuel := by
  unfold run
  rw [hd]
  dsimp only
  split
  · rfl
  · exact execLoop_input_free fuel (initState instrs tapeSize) in1 in2 hni

/-- C10 witness: the input-free program `+.` run once with a failing
    supply and once with a supply holding the character `A`. -/
theorem c10_no_input_deterministic_witness :
    run defaultMap 1024 ['+', '.'] [ReadResult.failure] 10
      = run defaultMap 1024 ['+', '.'] [ReadResult.success [65]] 10 :=
  c10_no_input_deterministic defaultMap 1024 ['+', '.'] 10
    [ReadResult.failure] [ReadResult.success [65]]
    [.byteInc, .output] rfl (by decide)

end BF
